import Mathlib

/-!
Shallow embedding of the papa_pizza point-of-sale program (src/database.py,
src/cli.py) and proofs about its pricing, order-lifecycle, query and
persistence behaviour.

Modelling conventions:
* Python floats (prices, costs, timestamps) are modelled as rationals `ℚ`.
* Python dicts are modelled as insertion-ordered association lists
  `List (String × _)`; `dict` lookup is `List.lookup` (keys are unique in all
  reachable states, so first-match lookup agrees with dict semantics).
* Code that can raise (`KeyError`, `DataError`) returns `Option`/`Except`.
* JSON values produced by `json.dumps`/`json.loads` are modelled by the
  inductive type `JSON` below.
-/

/-- Model of a JSON value as produced or consumed by the Python `json` module.
Integers and floats are kept distinct, as `json.dumps` distinguishes them. -/
inductive JSON where
  | null : JSON
  | bool : Bool → JSON
  | int : Int → JSON
  | num : ℚ → JSON
  | str : String → JSON
  | arr : List JSON → JSON
  | obj : List (String × JSON) → JSON

namespace JSON

/-- Dictionary access `j[k]` on a JSON object; `none` models `KeyError`
or indexing a non-object. -/
def get : JSON → String → Option JSON
  | .obj fields, k => fields.lookup k
  | _, _ => none

/-- Top-level key list of a JSON object (empty for non-objects). -/
def keys : JSON → List String
  | .obj fields => fields.map Prod.fst
  | _ => []

/-- Reads a JSON string, failing on any other value. -/
def asStr : JSON → Option String
  | .str s => some s
  | _ => none

/-- Reads a JSON boolean, failing on any other value. -/
def asBool : JSON → Option Bool
  | .bool b => some b
  | _ => none

/-- Reads a JSON integer, failing on any other value. -/
def asInt : JSON → Option Int
  | .int n => some n
  | _ => none

/-- Reads a JSON float, failing on any other value. -/
def asRat : JSON → Option ℚ
  | .num q => some q
  | _ => none

/-- Reads the field list of a JSON object, failing on any other value. -/
def asObj : JSON → Option (List (String × JSON))
  | .obj fields => some fields
  | _ => none

/-- Reads the element list of a JSON array, failing on any other value. -/
def asArr : JSON → Option (List JSON)
  | .arr xs => some xs
  | _ => none

end JSON

/-- Status of an order (class `Status` in database.py). -/
inductive Status where
  | PENDING : Status
  | IN_PROGRESS : Status
  | CANCELLED : Status
  | DONE : Status
  deriving DecidableEq, Repr

/-- The `Status.name` attribute of the Python enum. -/
def Status.name : Status → String
  | .PENDING => "PENDING"
  | .IN_PROGRESS => "IN_PROGRESS"
  | .CANCELLED => "CANCELLED"
  | .DONE => "DONE"

/-- Enum lookup `Status[name]`; `none` models the `KeyError` on an unknown
name. -/
def Status.fromName (s : String) : Option Status :=
  if s = "PENDING" then some .PENDING
  else if s = "IN_PROGRESS" then some .IN_PROGRESS
  else if s = "CANCELLED" then some .CANCELLED
  else if s = "DONE" then some .DONE
  else none

/-- An item in the menu (class `Item` in database.py). -/
structure Item where
  name : String
  price : ℚ
  deriving DecidableEq, Repr

/-- The catalog `all_items` of database.py: item name to `Item`,
in source order. -/
def all_items : List (String × Item) :=
  [("Pepperoni", ⟨"Pepperoni", 21⟩),
   ("Chicken Supreme", ⟨"Chicken Supreme", 47/2⟩),
   ("BBQ Meatlovers", ⟨"BBQ Meatlovers", 51/2⟩),
   ("Veg Supreme", ⟨"Veg Supreme", 45/2⟩),
   ("Hawaiian", ⟨"Hawaiian", 19⟩),
   ("Margherita", ⟨"Margherita", 37/2⟩)]

/-- A customer (class `Customer` in database.py). -/
structure Customer where
  name : String
  phone : String
  loyalty_member : Bool
  deriving DecidableEq, Repr

/-- The constructor `Customer.__init__`, which always starts with
`loyalty_member = False`. -/
def Customer.init (name phone : String) : Customer :=
  { name := name, phone := phone, loyalty_member := false }

/-- Getter `Customer.is_eligible_for_discount`. -/
def Customer.is_eligible_for_discount (c : Customer) : Bool :=
  c.loyalty_member

/-- Cost breakdown of an order (class `OrderCost` in database.py). -/
structure OrderCost where
  raw_cost : ℚ
  discount : ℚ
  delivery_cost : ℚ
  cost_before_gst : ℚ
  gst : ℚ
  cost_after_gst : ℚ
  deriving DecidableEq, Repr

namespace OrderCost

/-- The constructor `OrderCost.__init__`: every component starts at 0. -/
def init : OrderCost :=
  { raw_cost := 0, discount := 0, delivery_cost := 0,
    cost_before_gst := 0, gst := 0, cost_after_gst := 0 }

/-- Method `add_items`: `self.raw_cost += all_items[item_name].price * quantity`.
The catalog lookup `all_items[item_name]` raises `KeyError` on an unknown
name, modelled by `none`. The quantity is not validated. -/
def add_items (c : OrderCost) (item_name : String) (quantity : Int) : Option OrderCost :=
  match all_items.lookup item_name with
  | none => none
  | some item => some { c with raw_cost := c.raw_cost + item.price * quantity }

/-- Method `add_deliver_cost`: sets the delivery cost to the flat constant 8.0. -/
def add_deliver_cost (c : OrderCost) : OrderCost :=
  { c with delivery_cost := 8 }

/-- Method `add_discount`: `self.discount = self.raw_cost * 0.05`. -/
def add_discount (c : OrderCost) : OrderCost :=
  { c with discount := c.raw_cost * (5/100) }

/-- Method `can_discount_apply`: `self.raw_cost > 100`. -/
def can_discount_apply (c : OrderCost) : Bool :=
  decide (100 < c.raw_cost)

/-- Method `calculate_pre_gst_cost`. -/
def calculate_pre_gst_cost (c : OrderCost) : OrderCost :=
  { c with cost_before_gst := c.raw_cost - c.discount + c.delivery_cost }

/-- Method `calculate_gst`, which first refreshes `cost_before_gst`. -/
def calculate_gst (c : OrderCost) : OrderCost :=
  let c := c.calculate_pre_gst_cost
  { c with gst := c.cost_before_gst * (1/10) }

/-- Method `calculate_total_cost`, which first refreshes `gst`. -/
def calculate_total_cost (c : OrderCost) : OrderCost :=
  let c := c.calculate_gst
  { c with cost_after_gst := c.cost_before_gst + c.gst }

end OrderCost

/-- An order (class `Order` in database.py). -/
structure Order where
  customer : Customer
  time : ℚ
  completed_time : Option ℚ
  status : Status
  items : List (String × Int)
  is_home_delivery : Bool
  id : Int
  deriving DecidableEq, Repr

namespace Order

/-- The constructor `Order.__init__`. The current time (`time.time()`) and
the random id (`random.randint(1000, 9999)`) are passed in as explicit
parameters `now` and `rid`. -/
def init (customer : Customer) (items : List (String × Int)) (now : ℚ) (rid : Int) : Order :=
  { customer := customer, time := now, completed_time := none,
    status := .PENDING, items := items, is_home_delivery := false, id := rid }

/-- Method `mark_in_progress`: unconditionally sets the status. -/
def mark_in_progress (o : Order) : Order :=
  { o with status := .IN_PROGRESS }

/-- Method `mark_cancelled`: unconditionally sets the status. -/
def mark_cancelled (o : Order) : Order :=
  { o with status := .CANCELLED }

/-- Method `mark_done`: unconditionally sets the status and stamps
`completed_time` with the current time (passed as `now`). -/
def mark_done (o : Order) (now : ℚ) : Order :=
  { o with status := .DONE, completed_time := some now }

end Order

/-- The loop in `Order.cost` that feeds every `(item, count)` pair of the
order to `OrderCost.add_items`, propagating the first `KeyError`. -/
def addItemsList (c : OrderCost) : List (String × Int) → Option OrderCost
  | [] => some c
  | p :: rest =>
    match OrderCost.add_items c p.1 p.2 with
    | none => none
    | some c2 => addItemsList c2 rest

/-- Method `Order.cost`: builds an `OrderCost`, applies the discount when the
customer is a loyalty member and `can_discount_apply`, applies the delivery
cost when `is_home_delivery`, then finalises all derived components. -/
def Order.cost (o : Order) : Option OrderCost :=
  match addItemsList OrderCost.init o.items with
  | none => none
  | some costing =>
    let costing :=
      if o.customer.is_eligible_for_discount && costing.can_discount_apply then
        costing.add_discount
      else costing
    let costing := if o.is_home_delivery then costing.add_deliver_cost else costing
    some costing.calculate_total_cost

/-- Method `Order.toJSON`: the dict serialised for one order. -/
def Order.toJSON (o : Order) : JSON :=
  .obj [("customer", .str o.customer.phone),
        ("time", .num o.time),
        ("status", .str o.status.name),
        ("items", .obj (o.items.map (fun p => (p.1, .int p.2)))),
        ("is_home_delivery", .bool o.is_home_delivery),
        ("id", .int o.id),
        ("completed_time", match o.completed_time with
          | none => .null
          | some t => .num t)]

/-- Method `Order.fromJSON`: overwrites `time`, `status`, `is_home_delivery`
and `id` from the JSON dict, and `completed_time` only when that key is
present. The customer and the items are left as constructed. Any missing
key or ill-typed value fails (`KeyError` or a later type error). -/
def Order.fromJSON (o : Order) (data : JSON) : Option Order := do
  let t ← (← data.get "time").asRat
  let stname ← (← data.get "status").asStr
  let st ← Status.fromName stname
  let hd ← (← data.get "is_home_delivery").asBool
  let i ← (← data.get "id").asInt
  let o2 : Order :=
    { o with time := t, status := st, is_home_delivery := hd, id := i }
  match data.get "completed_time" with
  | none => some o2
  | some .null => some { o2 with completed_time := none }
  | some (.num q) => some { o2 with completed_time := some q }
  | some _ => none

/-- The dict comprehension in `FileSystemStoreData.toJSON` that serialises
one customer. -/
def Customer.toJSON (c : Customer) : JSON :=
  .obj [("name", .str c.name), ("phone", .str c.phone),
        ("loyalty_member", .bool c.loyalty_member)]

/-- The pure data of a store (class `FileSystemStoreData` in database.py). -/
structure FileSystemStoreData where
  all_customers : List (String × Customer)
  active_orders : List Order
  deriving DecidableEq, Repr

/-- Method `FileSystemStoreData.toJSON`: the persisted top-level JSON object,
with keys `"all_customers"` and `"active_orders"`. -/
def FileSystemStoreData.toJSON (d : FileSystemStoreData) : JSON :=
  .obj [("all_customers", .obj (d.all_customers.map (fun p => (p.1, p.2.toJSON)))),
        ("active_orders", .arr (d.active_orders.map (fun o => o.toJSON)))]

/-- The dict comprehension in `FileSystemStoreData.fromJSON` that rebuilds one
customer: `Customer(v["name"], v["phone"])`. The constructor starts every
customer with `loyalty_member = False`; the serialised `loyalty_member`
value is never read back. -/
def parseCustomer (v : JSON) : Option Customer := do
  let name ← (← v.get "name").asStr
  let phone ← (← v.get "phone").asStr
  some (Customer.init name phone)

/-- Rebuilds the customer dict, entry by entry, in file order. -/
def parseCustomers : List (String × JSON) → Option (List (String × Customer))
  | [] => some []
  | (k, v) :: rest => do
    let c ← parseCustomer v
    let cs ← parseCustomers rest
    some ((k, c) :: cs)

/-- The dict comprehension rebuilding one order's items dict. -/
def parseItems : List (String × JSON) → Option (List (String × Int))
  | [] => some []
  | (k, v) :: rest => do
    let n ← v.asInt
    let ns ← parseItems rest
    some ((k, n) :: ns)

/-- The body of the order loop in `FileSystemStoreData.fromJSON`: looks the
customer up by phone in the freshly rebuilt customer dict (`KeyError` when
absent), constructs an `Order`, then overwrites its fields with
`Order.fromJSON`. -/
def parseOrder (customers : List (String × Customer)) (ojson : JSON)
    (now : ℚ) (rid : Int) : Option Order := do
  let phone ← (← ojson.get "customer").asStr
  let customer ← customers.lookup phone
  let itemsJ ← (← ojson.get "items").asObj
  let items ← parseItems itemsJ
  Order.fromJSON (Order.init customer items now rid) ojson

/-- The order loop of `FileSystemStoreData.fromJSON`, in file order. -/
def parseOrders (customers : List (String × Customer)) (ojsons : List JSON)
    (now : ℚ) (rid : Int) : Option (List Order) :=
  match ojsons with
  | [] => some []
  | oj :: rest => do
    let o ← parseOrder customers oj now rid
    let os ← parseOrders customers rest now rid
    some (o :: os)

/-- Method `FileSystemStoreData.fromJSON`: replaces `all_customers` wholesale
and appends the parsed orders to the existing `active_orders` of `d`. -/
def FileSystemStoreData.fromJSON (d : FileSystemStoreData) (data : JSON)
    (now : ℚ) (rid : Int) : Option FileSystemStoreData := do
  let custJ ← (← data.get "all_customers").asObj
  let customers ← parseCustomers custJ
  let ordersJ ← (← data.get "active_orders").asArr
  let orders ← parseOrders customers ordersJ now rid
  some { all_customers := customers, active_orders := d.active_orders ++ orders }

/-- Exception class `DataError` of database.py. -/
structure DataError where
  message : String
  deriving DecidableEq, Repr

/-- A `FileSystemStore`: the in-memory data plus the current contents of its
backing file (`none` models a file that does not exist yet). -/
structure FileSystemStore where
  data : FileSystemStoreData
  file : Option JSON

namespace FileSystemStore

/-- Method `save`: rewrites the whole file with `json.dumps(self.data.toJSON())`. -/
def save (s : FileSystemStore) : FileSystemStore :=
  { s with file := some s.data.toJSON }

/-- Method `get_all_time_orders`: returns `list(self.data.active_orders)`
(object-identity aspects of the copy are modelled separately by `RefModel`). -/
def get_all_time_orders (s : FileSystemStore) : List Order :=
  s.data.active_orders

/-- Method `add_order`: constructs the order, flags home delivery, appends it
to `active_orders`, saves, and returns the order. `now` and `rid` stand for
`time.time()` and `random.randint(1000, 9999)` inside `Order.__init__`. -/
def add_order (s : FileSystemStore) (customer : Customer)
    (items : List (String × Int)) (is_home_delivery : Bool)
    (now : ℚ) (rid : Int) : FileSystemStore × Order :=
  let order := { Order.init customer items now rid with is_home_delivery := is_home_delivery }
  let s2 := { s with data := { s.data with active_orders := s.data.active_orders ++ [order] } }
  (s2.save, order)

/-- Method `get_customer`: dict `.get`, `none` when absent. -/
def get_customer (s : FileSystemStore) (phone : String) : Option Customer :=
  s.data.all_customers.lookup phone

/-- Method `add_customer`: raises `DataError` when the phone is already a key,
otherwise inserts the customer and saves. -/
def add_customer (s : FileSystemStore) (customer : Customer) :
    Except DataError FileSystemStore :=
  if (s.data.all_customers.lookup customer.phone).isSome then
    Except.error { message := "Customer already exists" }
  else
    Except.ok
      ({ s with data :=
        { s.data with all_customers := s.data.all_customers ++ [(customer.phone, customer)] } }).save

end FileSystemStore

/-- Replaces the first list element satisfying `p` by its image under `f`;
models finding an object with `next(...)` in a list and mutating it in place. -/
def updateFirstOrder (p : Order → Bool) (f : Order → Order) : List Order → List Order
  | [] => []
  | o :: rest => if p o then f o :: rest else o :: updateFirstOrder p f rest

/-- Updates (in place) the customer stored under `phone`, if any. -/
def updateFirstCustomer (phone : String) (f : Customer → Customer) :
    List (String × Customer) → List (String × Customer)
  | [] => []
  | p :: rest =>
    if p.1 = phone then (p.1, f p.2) :: rest else p :: updateFirstCustomer phone f rest

/-- Store effect of `MarkInProgressCommand.execute` in cli.py: finds the first
order with the given id among `get_all_time_orders()` (the copied list shares
its `Order` objects with the store) and calls `mark_in_progress` on it. No
save occurs. An unknown id leaves the store unchanged. -/
def markInProgressCommand (s : FileSystemStore) (order_id : Int) : FileSystemStore :=
  let orders :=
    updateFirstOrder (fun o => o.id == order_id) Order.mark_in_progress s.data.active_orders
  { s with data := { s.data with active_orders := orders } }

/-- Store effect of `MarkCancelledCommand.execute` in cli.py; no save occurs. -/
def markCancelledCommand (s : FileSystemStore) (order_id : Int) : FileSystemStore :=
  let orders :=
    updateFirstOrder (fun o => o.id == order_id) Order.mark_cancelled s.data.active_orders
  { s with data := { s.data with active_orders := orders } }

/-- Store effect of `MarkDoneCommand.execute` in cli.py; `now` is the
`time.time()` read inside `mark_done`. No save occurs. -/
def markDoneCommand (s : FileSystemStore) (order_id : Int) (now : ℚ) : FileSystemStore :=
  let orders :=
    updateFirstOrder (fun o => o.id == order_id) (fun o => o.mark_done now) s.data.active_orders
  { s with data := { s.data with active_orders := orders } }

/-- Store effect of `SetCustomerLoyaltyCommand.execute` in cli.py: looks the
customer up with `get_customer` and assigns `customer.loyalty_member`
directly on the shared object. It bypasses `FileSystemStore.set_customer_loyalty`,
so no save occurs. -/
def setLoyaltyCommand (s : FileSystemStore) (phone : String)
    (loyalty_status : Bool) : FileSystemStore :=
  match s.data.all_customers.lookup phone with
  | none => s
  | some _ =>
    let customers :=
      updateFirstCustomer phone (fun c => { c with loyalty_member := loyalty_status })
        s.data.all_customers
    { s with data := { s.data with all_customers := customers } }

/-- Civil date (year, month, day) of a day count relative to 1970-01-01,
proleptic Gregorian; the standard era-based conversion used to model what
`time.localtime` computes. -/
def civilFromDays (z0 : Int) : Int × Int × Int :=
  let z := z0 + 719468
  let era := (if 0 ≤ z then z else z - 146096) / 146097
  let doe := z - era * 146097
  let yoe := (doe - doe / 1460 + doe / 36524 - doe / 146096) / 365
  let y := yoe + era * 400
  let doy := doe - (365 * yoe + yoe / 4 - yoe / 100)
  let mp := (5 * doy + 2) / 153
  let d := doy - (153 * mp + 2) / 5 + 1
  let m := mp + (if mp < 10 then 3 else -9)
  (y + (if m ≤ 2 then 1 else 0), m, d)

/-- Gregorian leap-year test. -/
def isLeap (y : Int) : Bool :=
  y % 4 == 0 && (y % 100 != 0 || y % 400 == 0)

/-- Number of days strictly before month `m` in a year. -/
def daysBeforeMonth (leap : Bool) (m : Int) : Int :=
  let base : Int :=
    if m = 1 then 0 else if m = 2 then 31 else if m = 3 then 59
    else if m = 4 then 90 else if m = 5 then 120 else if m = 6 then 151
    else if m = 7 then 181 else if m = 8 then 212 else if m = 9 then 243
    else if m = 10 then 273 else if m = 11 then 304 else 334
  if leap ∧ 3 ≤ m then base + 1 else base

/-- The `(tm_year, tm_yday)` pair of a civil day count. -/
def yearYdayOfDays (days : Int) : Int × Int :=
  let c := civilFromDays days
  (c.1, daysBeforeMonth (isLeap c.1) c.2.1 + c.2.2)

/-- Model of `time.localtime(t)` restricted to the fields the program reads:
the year and the (1-based) day of the year `tm_yday`. The local timezone is
modelled with UTC offset 0. -/
def localtime (t : ℚ) : Int × Int :=
  yearYdayOfDays ⌊t / 86400⌋

/-- The `tm_yday` field of `time.localtime(t)`. -/
def tm_yday (t : ℚ) : Int :=
  (localtime t).2

/-- Method `FileSystemStore.get_date_orders`: keeps exactly the orders whose
`tm_yday` equals the `tm_yday` of the argument. The year is never compared.
In the source the default argument `time.time()` is evaluated once at class
definition time, not per call; the model always takes `t` explicitly. -/
def FileSystemStore.get_date_orders (s : FileSystemStore) (t : ℚ) : List Order :=
  let day := tm_yday t
  s.data.active_orders.filter (fun o => tm_yday o.time == day)

namespace RefModel

/-- A heap of Python list objects holding orders, addressed by reference. -/
structure Heap where
  cells : List (List Order)

/-- Dereferences a list object (out-of-range references read as empty). -/
def Heap.get (h : Heap) (r : Nat) : List Order :=
  h.cells.getD r []

/-- In-place mutation of the list object behind reference `r`. -/
def Heap.set (h : Heap) (r : Nat) (v : List Order) : Heap :=
  ⟨h.cells.set r v⟩

/-- Allocates a fresh list object and returns its reference. -/
def Heap.alloc (h : Heap) (v : List Order) : Heap × Nat :=
  (⟨h.cells ++ [v]⟩, h.cells.length)

/-- Reference-level model of `FileSystemStore.get_all_time_orders`:
`list(self.data.active_orders)` allocates a fresh list object with the same
elements and returns a reference to it, leaving the store's own list alone. -/
def get_all_time_orders (h : Heap) (store : Nat) : Heap × Nat :=
  h.alloc (h.get store)

end RefModel

/-- Effect of reloading a customer record: `Customer(v["name"], v["phone"])`
keeps the name and phone but restarts `loyalty_member` at `False`. -/
def resetLoyalty (c : Customer) : Customer :=
  { c with loyalty_member := false }

/-- A store with a single loyalty customer and no orders, used to exhibit the
serialisation round-trip losing the loyalty flag. -/
def c1data : FileSystemStoreData :=
  ⟨[("0400", ⟨"Alice", "0400", true⟩)], []⟩

/-- A loyalty customer together with a completed home-delivery order, used to
instantiate the round-trip theorem. -/
def c1wCustomer : Customer := ⟨"Alice", "0400", true⟩

/-- A concrete order for the round-trip witness. -/
def c1wOrder : Order := ⟨c1wCustomer, 5, some 9, .DONE, [("Pepperoni", 2)], true, 1234⟩

/-- A concrete store with one customer and one order. -/
def c1wData : FileSystemStoreData := ⟨[("0400", c1wCustomer)], [c1wOrder]⟩

/-- A nonempty store used to exhibit the top-level key names of the file. -/
def c3data : FileSystemStoreData := ⟨[("0400", ⟨"Alice", "0400", false⟩)], []⟩

/-- A loyalty customer ordering six Margherita pizzas (raw cost 111). -/
def c4wOrder : Order :=
  ⟨⟨"Alice", "0400", true⟩, 0, none, .PENDING, [("Margherita", 6)], false, 1⟩

/-- The cost breakdown the program computes for `c4wOrder`. -/
def c4wCost : OrderCost :=
  ⟨111, 111/20, 0, 2109/20, 2109/200, 23199/200⟩

/-- A non-loyalty customer with a single Pepperoni, delivered to home. -/
def c7wOrder : Order :=
  ⟨⟨"Bob", "0401", false⟩, 0, none, .PENDING, [("Pepperoni", 1)], true, 2⟩

/-- The cost breakdown the program computes for `c7wOrder`. -/
def c7wCost : OrderCost := ⟨21, 0, 8, 29, 29/10, 319/10⟩

/-- An order whose single line has quantity -1, a non-positive quantity. -/
def c8order : Order :=
  ⟨⟨"Bob", "0401", false⟩, 0, none, .PENDING, [("Pepperoni", -1)], false, 3⟩

/-- A concrete order already in the terminal DONE state. -/
def c5order : Order :=
  ⟨⟨"Bob", "0401", false⟩, 0, none, .DONE, [("Pepperoni", 1)], false, 4⟩

/-- A concrete order already in the terminal CANCELLED state. -/
def c5orderC : Order :=
  ⟨⟨"Bob", "0401", false⟩, 0, none, .CANCELLED, [("Pepperoni", 1)], false, 5⟩

/-- The customer of the order used for the date-query counterexample. -/
def c6customer : Customer := ⟨"Bob", "0401", false⟩

/-- An order placed at epoch second 31536000, i.e. on 1971-01-01. -/
def c6order : Order :=
  ⟨c6customer, 31536000, none, .PENDING, [("Pepperoni", 1)], false, 6⟩

/-- A store holding only the 1971 order. -/
def c6store : FileSystemStore := ⟨⟨[("0401", c6customer)], [c6order]⟩, none⟩

/-- The customer of the write-through counterexample. -/
def c2customer : Customer := ⟨"Alice", "0400", false⟩

/-- A pending order with id 1234. -/
def c2order : Order :=
  ⟨c2customer, 5, none, .PENDING, [("Pepperoni", 1)], false, 1234⟩

/-- Store data with one customer and one pending order. -/
def c2data : FileSystemStoreData := ⟨[("0400", c2customer)], [c2order]⟩

/-- A store immediately after a save: file and memory agree. -/
def c2store : FileSystemStore := ⟨c2data, some c2data.toJSON⟩

/-- Observation on a file: the status string of the first persisted order. -/
def obsFirstStatus (j : Option JSON) : Option String :=
  match j with
  | none => none
  | some f =>
    match f.get "active_orders" with
    | some (.arr (oj :: _)) => (oj.get "status").bind JSON.asStr
    | _ => none

/-- An empty store with no file yet. -/
def c2wStore : FileSystemStore := ⟨⟨[], []⟩, none⟩

/-- The customer inserted by the witness. -/
def c2wCustomer : Customer := ⟨"Carol", "0401", false⟩

/-- The store produced by a successful add_customer on the empty store. -/
def c2wResult : FileSystemStore :=
  match FileSystemStore.add_customer c2wStore c2wCustomer with
  | .ok s2 => s2
  | .error _ => c2wStore

/-- The single order sitting in the heap for the witness. -/
def c10wOrder : Order :=
  ⟨⟨"Bob", "0401", false⟩, 0, none, .PENDING, [("Pepperoni", 1)], false, 7⟩

/-- A heap whose only cell is the store's order list. -/
def c10wHeap : RefModel.Heap := ⟨[[c10wOrder]]⟩


/-- Feeding items to an `OrderCost` only ever changes `raw_cost`; every other
component is carried through unchanged. -/
theorem addItemsList_fields (l : List (String × Int)) :
    ∀ c c2 : OrderCost, addItemsList c l = some c2 →
    c2.discount = c.discount ∧ c2.delivery_cost = c.delivery_cost ∧
    c2.cost_before_gst = c.cost_before_gst ∧ c2.gst = c.gst ∧
    c2.cost_after_gst = c.cost_after_gst := by
  induction l with
  | nil =>
    intro c c2 h
    rw [addItemsList] at h
    cases h
    exact ⟨rfl, rfl, rfl, rfl, rfl⟩
  | cons p rest ih =>
    intro c c2 h
    rw [addItemsList, OrderCost.add_items] at h
    cases hl : all_items.lookup p.1 with
    | none => rw [hl] at h; cases h
    | some item =>
      rw [hl] at h
      simp only [] at h
      simpa using ih _ _ h

/-- Characterisation of every component of `Order.cost` on success: the
discount is 5% of `raw_cost` exactly when the customer is a loyalty member
and `raw_cost` exceeds 100; the delivery cost is the flat 8 exactly when the
order is a home delivery; and the pre-tax, GST and total components follow
the formulas of `calculate_total_cost`. -/
theorem cost_spec {o : Order} {c : OrderCost} (h : Order.cost o = some c) :
    c.discount =
      (if o.customer.loyalty_member = true ∧ 100 < c.raw_cost then c.raw_cost * (5/100) else 0)
  ∧ c.delivery_cost = (if o.is_home_delivery = true then 8 else 0)
  ∧ c.cost_before_gst = c.raw_cost - c.discount + c.delivery_cost
  ∧ c.gst = c.cost_before_gst * (1/10)
  ∧ c.cost_after_gst = c.cost_before_gst + c.gst := by
  rw [Order.cost] at h
  cases haddi : addItemsList OrderCost.init o.items with
  | none => rw [haddi] at h; cases h
  | some c0 =>
    rw [haddi] at h
    obtain ⟨hdis, hdel, -, -, -⟩ := addItemsList_fields o.items OrderCost.init c0 haddi
    rw [show OrderCost.init.discount = 0 from rfl] at hdis
    rw [show OrderCost.init.delivery_cost = 0 from rfl] at hdel
    simp only [Customer.is_eligible_for_discount, OrderCost.can_discount_apply] at h
    cases h1 : o.customer.loyalty_member with
    | false =>
      cases h2 : o.is_home_delivery with
      | false =>
        simp only [h1, h2, Bool.false_and, Bool.false_eq_true, if_false,
          Option.some.injEq] at h
        subst h
        simp [OrderCost.calculate_total_cost, OrderCost.calculate_gst,
          OrderCost.calculate_pre_gst_cost, hdis, hdel, h1, h2]
      | true =>
        simp only [h1, h2, Bool.false_and, Bool.false_eq_true, if_false, if_true,
          Option.some.injEq] at h
        subst h
        simp [OrderCost.calculate_total_cost, OrderCost.calculate_gst,
          OrderCost.calculate_pre_gst_cost, OrderCost.add_deliver_cost, hdis, hdel, h1, h2]
    | true =>
      by_cases hq : 100 < c0.raw_cost
      · cases h2 : o.is_home_delivery with
        | false =>
          simp only [h1, h2, hq, Bool.true_and, decide_True, Bool.false_eq_true, if_false,
            if_true, Option.some.injEq] at h
          subst h
          simp [OrderCost.calculate_total_cost, OrderCost.calculate_gst,
            OrderCost.calculate_pre_gst_cost, OrderCost.add_discount, hdis, hdel, h1, h2, hq]
        | true =>
          simp only [h1, h2, hq, Bool.true_and, decide_True, if_true,
            Option.some.injEq] at h
          subst h
          simp [OrderCost.calculate_total_cost, OrderCost.calculate_gst,
            OrderCost.calculate_pre_gst_cost, OrderCost.add_discount,
            OrderCost.add_deliver_cost, hdis, hdel, h1, h2, hq]
      · cases h2 : o.is_home_delivery with
        | false =>
          simp only [h1, h2, hq, Bool.true_and, decide_False, Bool.false_eq_true, if_false,
            Option.some.injEq] at h
          subst h
          simp [OrderCost.calculate_total_cost, OrderCost.calculate_gst,
            OrderCost.calculate_pre_gst_cost, hdis, hdel, h1, h2, hq]
        | true =>
          simp only [h1, h2, hq, Bool.true_and, decide_False, Bool.false_eq_true, if_false,
            if_true, Option.some.injEq] at h
          subst h
          simp [OrderCost.calculate_total_cost, OrderCost.calculate_gst,
            OrderCost.calculate_pre_gst_cost, OrderCost.add_deliver_cost, hdis, hdel,
            h1, h2, hq]

/-- Field read of the serialised customer dict. -/
theorem Customer.toJSON_get_name (c : Customer) :
    c.toJSON.get "name" = some (.str c.name) := rfl

/-- Field read of the serialised customer dict. -/
theorem Customer.toJSON_get_phone (c : Customer) :
    c.toJSON.get "phone" = some (.str c.phone) := rfl

/-- Field read of the serialised customer dict. -/
theorem Customer.toJSON_get_loyalty (c : Customer) :
    c.toJSON.get "loyalty_member" = some (.bool c.loyalty_member) := rfl

/-- Field read of the serialised order dict. -/
theorem Order.toJSON_get_customer (o : Order) :
    o.toJSON.get "customer" = some (.str o.customer.phone) := rfl

/-- Field read of the serialised order dict. -/
theorem Order.toJSON_get_time (o : Order) :
    o.toJSON.get "time" = some (.num o.time) := rfl

/-- Field read of the serialised order dict. -/
theorem Order.toJSON_get_status (o : Order) :
    o.toJSON.get "status" = some (.str o.status.name) := rfl

/-- Field read of the serialised order dict. -/
theorem Order.toJSON_get_items (o : Order) :
    o.toJSON.get "items" = some (.obj (o.items.map (fun p => (p.1, .int p.2)))) := rfl

/-- Field read of the serialised order dict. -/
theorem Order.toJSON_get_home_delivery (o : Order) :
    o.toJSON.get "is_home_delivery" = some (.bool o.is_home_delivery) := rfl

/-- Field read of the serialised order dict. -/
theorem Order.toJSON_get_id (o : Order) :
    o.toJSON.get "id" = some (.int o.id) := rfl

/-- Field read of the serialised order dict. -/
theorem Order.toJSON_get_completed (o : Order) :
    o.toJSON.get "completed_time" =
      some (match o.completed_time with | none => .null | some t => .num t) := rfl

/-- Top-level read of the persisted file object. -/
theorem FileSystemStoreData.toJSON_get_customers (d : FileSystemStoreData) :
    d.toJSON.get "all_customers" =
      some (.obj (d.all_customers.map (fun p => (p.1, p.2.toJSON)))) := rfl

/-- Top-level read of the persisted file object. -/
theorem FileSystemStoreData.toJSON_get_orders (d : FileSystemStoreData) :
    d.toJSON.get "active_orders" =
      some (.arr (d.active_orders.map (fun o => o.toJSON))) := rfl

/-- Reparsing a serialised customer restores name and phone and resets the
loyalty flag. -/
theorem parseCustomer_toJSON (c : Customer) :
    parseCustomer c.toJSON = some (resetLoyalty c) := rfl

/-- Reparsing the serialised customer dict resets every loyalty flag and keeps
everything else. -/
theorem parseCustomers_toJSON (l : List (String × Customer)) :
    parseCustomers (l.map (fun p => (p.1, p.2.toJSON))) =
      some (l.map (fun p => (p.1, resetLoyalty p.2))) := by
  induction l with
  | nil => rfl
  | cons p rest ih =>
    obtain ⟨k, v⟩ := p
    simp [parseCustomers, parseCustomer_toJSON, ih]

/-- Looking a key up after resetting every loyalty flag is resetting the
result of the original lookup. -/
theorem lookup_resetLoyalty (k : String) (l : List (String × Customer)) :
    (l.map (fun p => (p.1, resetLoyalty p.2))).lookup k =
      (l.lookup k).map resetLoyalty := by
  induction l with
  | nil => rfl
  | cons p rest ih =>
    obtain ⟨k2, v⟩ := p
    cases hk : k == k2 <;> simp [List.lookup, hk, ih]

/-- Reparsing the serialised items dict restores it exactly. -/
theorem parseItems_toJSON (l : List (String × Int)) :
    parseItems (l.map (fun p => (p.1, JSON.int p.2))) = some l := by
  induction l with
  | nil => rfl
  | cons p rest ih =>
    obtain ⟨k, v⟩ := p
    simp [parseItems, JSON.asInt, ih]

/-- The enum name written by `toJSON` parses back to the same status. -/
theorem Status.fromName_name (st : Status) : Status.fromName st.name = some st := by
  cases st <;> rfl

/-- Overwriting a freshly constructed order from its own serialised dict
restores time, status, home-delivery flag, id and completion time; customer
and items stay as constructed. -/
theorem Order.fromJSON_toJSON (o : Order) (c0 : Customer)
    (items0 : List (String × Int)) (now : ℚ) (rid : Int) :
    Order.fromJSON (Order.init c0 items0 now rid) o.toJSON =
      some { o with customer := c0, items := items0 } := by
  obtain ⟨cust, t, ct, st, its, hd, i⟩ := o
  cases ct with
  | none => cases st <;> rfl
  | some q => cases st <;> rfl

/-- Reparsing one serialised order against a rebuilt customer dict: the
customer reference is replaced by whatever the phone now resolves to. -/
theorem parseOrder_toJSON (customers : List (String × Customer)) (o : Order)
    (c0 : Customer) (now : ℚ) (rid : Int)
    (h : customers.lookup o.customer.phone = some c0) :
    parseOrder customers o.toJSON now rid = some { o with customer := c0 } := by
  simp [parseOrder, Order.toJSON_get_customer, Order.toJSON_get_items,
    JSON.asStr, JSON.asObj, h, parseItems_toJSON, Order.fromJSON_toJSON]

/-- Reparsing the serialised order list, when every phone resolves in the
rebuilt customer dict. -/
theorem parseOrders_toJSON (customers : List (String × Customer))
    (l : List Order) (now : ℚ) (rid : Int)
    (h : ∀ o ∈ l, customers.lookup o.customer.phone = some (resetLoyalty o.customer)) :
    parseOrders customers (l.map Order.toJSON) now rid =
      some (l.map (fun o => { o with customer := resetLoyalty o.customer })) := by
  induction l with
  | nil => rfl
  | cons o rest ih =>
    have ho := h o (List.mem_cons_self o rest)
    have hrest : ∀ o2 ∈ rest, customers.lookup o2.customer.phone =
        some (resetLoyalty o2.customer) :=
      fun o2 hm => h o2 (List.mem_cons_of_mem o hm)
    simp [parseOrders, parseOrder_toJSON customers o _ now rid ho, ih hrest]

/-- C1 (amended): saving a store and loading it back restores every order
field (status, items, id, time, is_home_delivery, completed_time) and every
customer's name and phone, but resets every loyalty_member flag to False,
both in the customer map and in each order's customer reference. The
hypothesis states the store invariant that each order's customer is, by
phone, the customer recorded in the customer map. `now` and `rid` stand for
the constructor timestamps and random ids, which the load overwrites. -/
theorem c1_roundtrip_resets_loyalty (d : FileSystemStoreData) (now : ℚ) (rid : Int)
    (hwf : ∀ o ∈ d.active_orders,
      d.all_customers.lookup o.customer.phone = some o.customer) :
    FileSystemStoreData.fromJSON ⟨[], []⟩ d.toJSON now rid =
      some ⟨d.all_customers.map (fun p => (p.1, resetLoyalty p.2)),
            d.active_orders.map (fun o => { o with customer := resetLoyalty o.customer })⟩ := by
  have horders : ∀ o ∈ d.active_orders,
      (d.all_customers.map (fun p => (p.1, resetLoyalty p.2))).lookup o.customer.phone =
        some (resetLoyalty o.customer) := by
    intro o hm
    simp [lookup_resetLoyalty, hwf o hm]
  simp [FileSystemStoreData.fromJSON, FileSystemStoreData.toJSON_get_customers,
    FileSystemStoreData.toJSON_get_orders, JSON.asObj, JSON.asArr,
    parseCustomers_toJSON, parseOrders_toJSON _ _ now rid horders]

/-- C1 (counterexample): saving a store whose only customer has
loyalty_member = True and loading it back does not reproduce the original
collections — the reloaded customer has loyalty_member = False. -/
theorem c1_roundtrip_counterexample :
    FileSystemStoreData.fromJSON ⟨[], []⟩ c1data.toJSON 0 0 ≠ some c1data := by
  decide

/-- Witness instantiating the round-trip theorem on a concrete store. -/
theorem c1_roundtrip_resets_loyalty_witness :
    FileSystemStoreData.fromJSON ⟨[], []⟩ c1wData.toJSON 0 0 =
      some ⟨c1wData.all_customers.map (fun p => (p.1, resetLoyalty p.2)),
            c1wData.active_orders.map
              (fun o => { o with customer := resetLoyalty o.customer })⟩ :=
  c1_roundtrip_resets_loyalty c1wData 0 0 (by decide)

/-- C3 (amended): the persisted file is a JSON object whose top-level keys are
`"all_customers"` (not `"customers"`) and `"active_orders"` (not `"orders"`);
under them, each customer object has fields name, phone and loyalty_member,
and each order object has fields customer, time, status, items,
is_home_delivery, id and completed_time, with the advertised value types. -/
theorem c3_file_format (d : FileSystemStoreData) :
    d.toJSON.keys = ["all_customers", "active_orders"]
  ∧ d.toJSON.get "all_customers" =
      some (.obj (d.all_customers.map (fun p => (p.1, p.2.toJSON))))
  ∧ d.toJSON.get "active_orders" =
      some (.arr (d.active_orders.map (fun o => o.toJSON)))
  ∧ (∀ c : Customer, c.toJSON.keys = ["name", "phone", "loyalty_member"]
      ∧ c.toJSON.get "name" = some (.str c.name)
      ∧ c.toJSON.get "phone" = some (.str c.phone)
      ∧ c.toJSON.get "loyalty_member" = some (.bool c.loyalty_member))
  ∧ (∀ o : Order, o.toJSON.keys =
        ["customer", "time", "status", "items", "is_home_delivery", "id",
         "completed_time"]
      ∧ o.toJSON.get "customer" = some (.str o.customer.phone)
      ∧ o.toJSON.get "time" = some (.num o.time)
      ∧ o.toJSON.get "status" = some (.str o.status.name)
      ∧ o.toJSON.get "items" = some (.obj (o.items.map (fun p => (p.1, .int p.2))))
      ∧ o.toJSON.get "is_home_delivery" = some (.bool o.is_home_delivery)
      ∧ o.toJSON.get "id" = some (.int o.id)
      ∧ o.toJSON.get "completed_time" =
          some (match o.completed_time with | none => .null | some t => .num t)) :=
  ⟨rfl, rfl, rfl, fun _ => ⟨rfl, rfl, rfl, rfl⟩,
   fun _ => ⟨rfl, rfl, rfl, rfl, rfl, rfl, rfl, rfl⟩⟩

/-- C3 (counterexample): the persisted top-level object has no key
`"customers"` and no key `"orders"`; its keys are `"all_customers"` and
`"active_orders"`. -/
theorem c3_file_format_counterexample :
    (c3data.toJSON.get "customers").isNone = true
  ∧ (c3data.toJSON.get "orders").isNone = true
  ∧ c3data.toJSON.keys = ["all_customers", "active_orders"]
  ∧ ("all_customers" : String) ≠ "customers"
  ∧ ("active_orders" : String) ≠ "orders" :=
  ⟨rfl, rfl, rfl, by decide, by decide⟩

/-- Concrete evaluation of `Order.cost` on `c4wOrder`. -/
theorem c4w_cost : Order.cost c4wOrder = some c4wCost := by
  norm_num [Order.cost, addItemsList, OrderCost.add_items,
    show all_items.lookup "Margherita" = some ⟨"Margherita", 37/2⟩ from rfl,
    OrderCost.init, Customer.is_eligible_for_discount, OrderCost.can_discount_apply,
    OrderCost.add_discount, OrderCost.calculate_total_cost, OrderCost.calculate_gst,
    OrderCost.calculate_pre_gst_cost, c4wOrder, c4wCost]

/-- C4: the discount is nonzero exactly when the raw cost exceeds 100 and the
customer is a loyalty member; when it applies it is exactly 5% of the raw
cost; and whenever the raw cost is at most 100 the discount is 0 regardless
of the loyalty flag. -/
theorem c4_discount_characterisation (o : Order) (c : OrderCost)
    (h : Order.cost o = some c) :
    (c.discount ≠ 0 ↔ (100 < c.raw_cost ∧ o.customer.loyalty_member = true))
  ∧ ((100 < c.raw_cost ∧ o.customer.loyalty_member = true) →
      c.discount = (5/100) * c.raw_cost)
  ∧ (c.raw_cost ≤ 100 → c.discount = 0) := by
  obtain ⟨hdisc, -, -, -, -⟩ := cost_spec h
  by_cases hcond : o.customer.loyalty_member = true ∧ 100 < c.raw_cost
  · rw [if_pos hcond] at hdisc
    have hpos : (0:ℚ) < c.raw_cost := lt_trans (by norm_num) hcond.2
    have hne : c.raw_cost * (5/100) ≠ 0 := mul_ne_zero (ne_of_gt hpos) (by norm_num)
    refine ⟨⟨fun _ => ⟨hcond.2, hcond.1⟩, fun _ => ?_⟩, fun _ => ?_, fun hle => ?_⟩
    · rw [hdisc]; exact hne
    · rw [hdisc]; ring
    · exact absurd hcond.2 (not_lt.mpr hle)
  · rw [if_neg hcond] at hdisc
    exact ⟨⟨fun hne => absurd hdisc hne, fun hyes => absurd ⟨hyes.2, hyes.1⟩ hcond⟩,
           fun hyes => absurd ⟨hyes.2, hyes.1⟩ hcond, fun _ => hdisc⟩

/-- Witness instantiating the discount characterisation on `c4wOrder`. -/
theorem c4_discount_characterisation_witness :
    (c4wCost.discount ≠ 0 ↔
      (100 < c4wCost.raw_cost ∧ c4wOrder.customer.loyalty_member = true))
  ∧ ((100 < c4wCost.raw_cost ∧ c4wOrder.customer.loyalty_member = true) →
      c4wCost.discount = (5/100) * c4wCost.raw_cost)
  ∧ (c4wCost.raw_cost ≤ 100 → c4wCost.discount = 0) :=
  c4_discount_characterisation c4wOrder c4wCost c4w_cost

/-- Concrete evaluation of `Order.cost` on `c7wOrder`. -/
theorem c7w_cost : Order.cost c7wOrder = some c7wCost := by
  norm_num [Order.cost, addItemsList, OrderCost.add_items,
    show all_items.lookup "Pepperoni" = some ⟨"Pepperoni", 21⟩ from rfl,
    OrderCost.init, Customer.is_eligible_for_discount, OrderCost.can_discount_apply,
    OrderCost.add_deliver_cost, OrderCost.calculate_total_cost, OrderCost.calculate_gst,
    OrderCost.calculate_pre_gst_cost, c7wOrder, c7wCost]

/-- C7 (amended): the computed delivery cost is the flat constant 8.0 — not
5.0 — when is_home_delivery is true, and 0 otherwise, independent of the
items in the order. -/
theorem c7_delivery_flat_eight (o : Order) (c : OrderCost)
    (h : Order.cost o = some c) :
    c.delivery_cost = (if o.is_home_delivery = true then 8 else 0) :=
  (cost_spec h).2.1

/-- C7 (counterexample): a home-delivery order is charged 8.0 for delivery,
not the 5.0 the claim states. -/
theorem c7_delivery_counterexample :
    (Order.cost c7wOrder).map OrderCost.delivery_cost = some 8
  ∧ ((8 : ℚ) ≠ 5) := by
  refine ⟨?_, by norm_num⟩
  rw [c7w_cost]
  rfl

/-- Witness instantiating the delivery-cost theorem on `c7wOrder`. -/
theorem c7_delivery_flat_eight_witness :
    c7wCost.delivery_cost = (if c7wOrder.is_home_delivery = true then 8 else 0) :=
  c7_delivery_flat_eight c7wOrder c7wCost c7w_cost

/-- C9: the total after GST equals the post-discount, post-delivery subtotal
times 1.10, for every order whose cost computation succeeds. -/
theorem c9_tax_formula (o : Order) (c : OrderCost) (h : Order.cost o = some c) :
    c.cost_after_gst = (c.raw_cost - c.discount + c.delivery_cost) * (11/10) := by
  obtain ⟨-, -, hbefore, hgst, hafter⟩ := cost_spec h
  rw [hafter, hgst, hbefore]
  ring

/-- Witness instantiating the GST formula on `c4wOrder`. -/
theorem c9_tax_formula_witness :
    c4wCost.cost_after_gst =
      (c4wCost.raw_cost - c4wCost.discount + c4wCost.delivery_cost) * (11/10) :=
  c9_tax_formula c4wOrder c4wCost c4w_cost

/-- Feeding items fails exactly when some item name is missing from the
catalog; quantities are never checked. -/
theorem addItemsList_none_iff (l : List (String × Int)) :
    ∀ c : OrderCost,
      (addItemsList c l = none ↔ ∃ p ∈ l, all_items.lookup p.1 = none) := by
  induction l with
  | nil =>
    intro c
    rw [addItemsList]
    exact iff_of_false (by simp) (by simp)
  | cons p rest ih =>
    intro c
    rw [addItemsList, OrderCost.add_items]
    cases hl : all_items.lookup p.1 with
    | none => exact iff_of_true rfl ⟨p, List.mem_cons_self p rest, hl⟩
    | some item =>
      constructor
      · intro h
        obtain ⟨q, hq, hnone⟩ := (ih _).mp h
        exact ⟨q, List.mem_cons_of_mem p hq, hnone⟩
      · rintro ⟨q, hq, hnone⟩
        rcases List.mem_cons.mp hq with h1 | h2
        · rw [h1] at hnone
          rw [hl] at hnone
          cases hnone
        · exact (ih _).mpr ⟨q, h2, hnone⟩

/-- C8 (amended): the cost computation fails exactly when some item name of
the order is absent from the catalog `all_items`; item quantities — zero or
negative included — never cause a failure, and on orders whose item names
are all in the catalog the computation succeeds. -/
theorem c8_cost_failure_iff (o : Order) :
    Order.cost o = none ↔ ∃ p ∈ o.items, all_items.lookup p.1 = none := by
  rw [Order.cost]
  cases haddi : addItemsList OrderCost.init o.items with
  | none =>
    exact iff_of_true rfl ((addItemsList_none_iff o.items OrderCost.init).mp haddi)
  | some c0 =>
    refine iff_of_false (by simp) ?_
    exact fun hex =>
      absurd ((addItemsList_none_iff o.items OrderCost.init).mpr hex) (by simp [haddi])

/-- C8 (counterexample): an order whose only quantity is -1 ≤ 0 is costed
successfully — the claimed domain error on non-positive quantities never
happens. -/
theorem c8_quantity_counterexample :
    (Order.cost c8order).isSome = true ∧ ∀ p ∈ c8order.items, p.2 ≤ 0 :=
  ⟨rfl, by decide⟩

/-- C5 (counterexample): a DONE order moved to IN_PROGRESS and a CANCELLED
order moved to DONE by a single further transition call — terminal states are
not sticky. -/
theorem c5_terminal_counterexample :
    c5order.status = Status.DONE
  ∧ (c5order.mark_in_progress).status = Status.IN_PROGRESS
  ∧ Status.IN_PROGRESS ≠ Status.DONE
  ∧ c5orderC.status = Status.CANCELLED
  ∧ (c5orderC.mark_done 7).status = Status.DONE
  ∧ Status.DONE ≠ Status.CANCELLED :=
  ⟨rfl, rfl, by decide, rfl, rfl, by decide⟩

/-- C5 (amended): the three transition methods are unguarded — each sets its
target status unconditionally, whatever the current status (DONE and
CANCELLED included); `mark_done` additionally stamps `completed_time`, which
the other two leave untouched. -/
theorem c5_transitions_unguarded (o : Order) (now : ℚ) :
    (o.mark_in_progress).status = Status.IN_PROGRESS
  ∧ (o.mark_cancelled).status = Status.CANCELLED
  ∧ (o.mark_done now).status = Status.DONE
  ∧ (o.mark_done now).completed_time = some now
  ∧ (o.mark_in_progress).completed_time = o.completed_time
  ∧ (o.mark_cancelled).completed_time = o.completed_time :=
  ⟨rfl, rfl, rfl, rfl, rfl, rfl⟩

/-- The civil day count 0 (1970-01-01) has year 1970 and day-of-year 1. -/
theorem yearYdayOfDays_zero : yearYdayOfDays 0 = (1970, 1) := by decide

/-- The civil day count 365 (1971-01-01) has year 1971 and day-of-year 1. -/
theorem yearYdayOfDays_365 : yearYdayOfDays 365 = (1971, 1) := by decide

/-- Evaluation of the modelled localtime at epoch second 0. -/
theorem localtime_zero : localtime 0 = (1970, 1) := by
  rw [localtime, show (0:ℚ) / 86400 = ((0:Int):ℚ) by norm_num, Int.floor_intCast]
  exact yearYdayOfDays_zero

/-- Evaluation of the modelled localtime one (non-leap) year later. -/
theorem localtime_y1 : localtime 31536000 = (1971, 1) := by
  rw [localtime, show (31536000:ℚ) / 86400 = ((365:Int):ℚ) by norm_num,
    Int.floor_intCast]
  exact yearYdayOfDays_365

/-- C6 (amended): an order is returned by `get_date_orders t` exactly when it
is in the store and its `tm_yday` (day of year, local time) equals that of
`t`; the year plays no part in the comparison. -/
theorem c6_get_date_orders_yday (s : FileSystemStore) (t : ℚ) (o : Order) :
    o ∈ s.get_date_orders t ↔
      o ∈ s.data.active_orders ∧ tm_yday o.time = tm_yday t := by
  simp [FileSystemStore.get_date_orders, List.mem_filter]

/-- C6 (counterexample): querying the store for epoch second 0 (1970-01-01)
returns the order placed on 1971-01-01 — a different calendar day whose
day-of-year merely coincides. -/
theorem c6_date_counterexample :
    FileSystemStore.get_date_orders c6store 0 = [c6order]
  ∧ localtime c6order.time ≠ localtime 0 := by
  have h1 : tm_yday c6order.time = 1 := by
    rw [tm_yday, show c6order.time = 31536000 from rfl, localtime_y1]
  have h0 : tm_yday 0 = 1 := by rw [tm_yday, localtime_zero]
  constructor
  · simp [FileSystemStore.get_date_orders, c6store, h1, h0]
  · rw [show c6order.time = 31536000 from rfl, localtime_y1, localtime_zero]
    decide

/-- C2 (amended): `add_order` and a successful `add_customer` write the whole
store to the file before returning, but the status-change commands
(mark_in_progress / mark_cancelled / mark_done) and the set_loyalty command
leave the file byte-for-byte as it was — those mutations reach disk only
through some later save. -/
theorem c2_save_discipline (s : FileSystemStore) (cust : Customer)
    (items : List (String × Int)) (hd : Bool) (now nowq : ℚ) (rid oid : Int)
    (phone : String) (b : Bool) :
    ((s.add_order cust items hd now rid).1.file =
      some (s.add_order cust items hd now rid).1.data.toJSON)
  ∧ (∀ s2, s.add_customer cust = Except.ok s2 → s2.file = some s2.data.toJSON)
  ∧ (markInProgressCommand s oid).file = s.file
  ∧ (markCancelledCommand s oid).file = s.file
  ∧ (markDoneCommand s oid nowq).file = s.file
  ∧ (setLoyaltyCommand s phone b).file = s.file := by
  refine ⟨rfl, ?_, rfl, rfl, rfl, ?_⟩
  · intro s2 h
    rw [FileSystemStore.add_customer] at h
    by_cases hc : (s.data.all_customers.lookup cust.phone).isSome
    · rw [if_pos hc] at h
      cases h
    · rw [if_neg hc] at h
      cases h
      rfl
  · simp only [setLoyaltyCommand]
    cases s.data.all_customers.lookup phone <;> rfl

/-- C2 (counterexample): after the mark_done command on a freshly saved
store, the file no longer reflects the store state — it still holds the
order as PENDING while memory says DONE, so no save happened before the
command returned. -/
theorem c2_writethrough_counterexample :
    ¬ ((markDoneCommand c2store 1234 9).file =
        some (markDoneCommand c2store 1234 9).data.toJSON) :=
  fun h => absurd (congrArg obsFirstStatus h) (by decide)

/-- Witness instantiating the save-discipline theorem on concrete stores. -/
theorem c2_save_discipline_witness :
    (markDoneCommand c2wStore 1 2).file = c2wStore.file
  ∧ c2wResult.file = some c2wResult.data.toJSON :=
  ⟨(c2_save_discipline c2wStore c2wCustomer [] false 0 2 0 1 "p" true).2.2.2.2.1,
   (c2_save_discipline c2wStore c2wCustomer [] false 0 2 0 1 "p" true).2.1
     c2wResult rfl⟩

/-- List update at an index other than `j` does not change position `j`. -/
theorem getD_set_ne {α : Type} :
    ∀ (l : List α) (i j : Nat) (x d : α), i ≠ j →
      (l.set i x).getD j d = l.getD j d
  | [], _, _, _, _, _ => rfl
  | _ :: _, 0, 0, _, _, h => absurd rfl h
  | _ :: _, 0, _+1, _, _, _ => rfl
  | _ :: _, _+1, 0, _, _, _ => rfl
  | _ :: l, i+1, j+1, x, d, h =>
    getD_set_ne l i j x d (fun hij => h (by rw [hij]))

/-- Reading inside the left part of an appended list. -/
theorem getD_append_left {α : Type} :
    ∀ (l l2 : List α) (j : Nat) (d : α), j < l.length →
      (l ++ l2).getD j d = l.getD j d
  | [], _, _, _, h => absurd h (Nat.not_lt_zero _)
  | _ :: _, _, 0, _, _ => rfl
  | _ :: l, l2, j+1, d, h => getD_append_left l l2 j d (Nat.lt_of_succ_lt_succ h)

/-- Reading the freshly appended last element. -/
theorem getD_append_length {α : Type} :
    ∀ (l : List α) (v d : α), (l ++ [v]).getD l.length d = v
  | [], _, _ => rfl
  | _ :: l, v, d => getD_append_length l v d

/-- C10: `get_all_time_orders` hands out a fresh list object holding the same
elements as the store's internal order list; however the returned reference
is mutated afterwards (append, remove, sort — any reassignment `f`), the
store's own list is untouched. -/
theorem c10_fresh_list (h : RefModel.Heap) (store : Nat)
    (hlt : store < h.cells.length) (f : List Order → List Order) :
    (((RefModel.get_all_time_orders h store).1.set
        (RefModel.get_all_time_orders h store).2
        (f ((RefModel.get_all_time_orders h store).1.get
              (RefModel.get_all_time_orders h store).2))).get store
      = h.get store)
  ∧ (RefModel.get_all_time_orders h store).1.get
      (RefModel.get_all_time_orders h store).2 = h.get store := by
  have hcopy : (RefModel.get_all_time_orders h store).1.get
      (RefModel.get_all_time_orders h store).2 = h.get store :=
    getD_append_length h.cells (h.get store) []
  refine ⟨?_, hcopy⟩
  show ((h.cells ++ [h.get store]).set h.cells.length _).getD store [] = _
  rw [getD_set_ne _ _ _ _ _ (Nat.ne_of_gt hlt)]
  exact getD_append_left h.cells [h.get store] store [] hlt

/-- Witness instantiating the fresh-list theorem: appending to the returned
list leaves the store's list unchanged. -/
theorem c10_fresh_list_witness :
    (((RefModel.get_all_time_orders c10wHeap 0).1.set
        (RefModel.get_all_time_orders c10wHeap 0).2
        ((RefModel.get_all_time_orders c10wHeap 0).1.get
            (RefModel.get_all_time_orders c10wHeap 0).2 ++ [c10wOrder])).get 0
      = c10wHeap.get 0)
  ∧ (RefModel.get_all_time_orders c10wHeap 0).1.get
      (RefModel.get_all_time_orders c10wHeap 0).2 = c10wHeap.get 0 :=
  c10_fresh_list c10wHeap 0 (by decide) (fun l => l ++ [c10wOrder])

